import Mathlib

/-!
# DS1821 programmator: bus transactions of `src/main.cpp`

Shallow embedding of the sketch.  Every call of a platform primitive
(`ds.reset`, `ds.write`, `ds.read`, `delay`, `delayMicroseconds`, `pinMode`,
`digitalWrite`, `Serial.print`) appends one `Event` to the trace of the
`World`; the answers of the outside world (presence pulses, bytes clocked out
by the chip, characters typed by the operator) are oracles stored in the
`World`.
-/

namespace DS1821

/-! ## Constants of the sketch -/

/-- DS1821 command: read configuration register. -/
def READ_CFG : Nat := 0xAC
/-- DS1821 command: write configuration register. -/
def WRITE_CFG : Nat := 0x0C
/-- DS1821 command: read temperature register. -/
def READ_TEMP : Nat := 0xAA
/-- DS1821 command: start temperature conversion. -/
def START_CNV : Nat := 0xEE
/-- DS1821 command: stop temperature conversion. -/
def STOP_CNV : Nat := 0x22
/-- DS1821 command: read high temperature register. -/
def READ_TH : Nat := 0xA1
/-- DS1821 command: read low temperature register. -/
def READ_TL : Nat := 0xA2
/-- DS1821 command: write high temperature register. -/
def WRITE_TH : Nat := 0x01
/-- DS1821 command: write low temperature register. -/
def WRITE_TL : Nat := 0x02
/-- DS1821 command: read counter register. -/
def READ_CNTR : Nat := 0xA0
/-- DS1821 command: read slope register. -/
def READ_SLOPE : Nat := 0xA9

/-- Configuration register mask `B10000000`: temperature conversion is done. -/
def DONE : Nat := 0b10000000
/-- Configuration register mask `B00100000`: non-volatile memory is busy. -/
def NVB : Nat := 0b00100000
/-- Configuration register mask `B00010000`: high temperature flag. -/
def THF : Nat := 0b00010000
/-- Configuration register mask `B00001000`: low temperature flag. -/
def TLF : Nat := 0b00001000
/-- Configuration register mask `B00000100`: power-up mode, 1 is thermostat. -/
def TRMODE : Nat := 0b00000100
/-- Configuration register mask `B00000010`: DQ polarity. -/
def POL : Nat := 0b00000010
/-- Configuration register mask `B00000001`: one conversion when 1. -/
def ONESHOT : Nat := 0b00000001

/-- The two pins the sketch drives: `pDQ` (4) and `pVDD` (A5). -/
inductive Pin where
  | pDQ
  | pVDD
  deriving DecidableEq, Repr

/-- Pin level of `digitalWrite`. -/
inductive Level where
  | LOW
  | HIGH
  deriving DecidableEq, Repr

/-- Pin direction of `pinMode`. -/
inductive Mode where
  | INPUT
  | OUTPUT
  deriving DecidableEq, Repr

/-! ## Events and the world -/

/-- One call of a platform primitive, in program order. -/
inductive Event where
  /-- The call `ds.reset()`. -/
  | reset
  /-- The call `ds.write(v)`, with the byte put on the bus. -/
  | write (v : Nat)
  /-- The call `ds.read()`. -/
  | read
  /-- The call `delay(ms)`. -/
  | delay (ms : Nat)
  /-- The call `delayMicroseconds(us)`. -/
  | delayMicroseconds (us : Nat)
  /-- The call `pinMode(pin, mode)`. -/
  | pinMode (pin : Pin) (mode : Mode)
  /-- The call `digitalWrite(pin, level)`. -/
  | digitalWrite (pin : Pin) (level : Level)
  /-- Text sent by `Serial.print` or `Serial.println`. -/
  | print (s : String)
  deriving DecidableEq, Repr

/-- State threaded through the sketch.  `presence n` is whether the chip
answers the `n`-th reset pulse, `byteAt n` is what the chip clocks out at the
`n`-th `ds.read()`, `serialIn` are the characters still to arrive on the serial
port, `trace` the primitive calls made so far. -/
structure World where
  presence : Nat → Bool
  resets : Nat
  byteAt : Nat → Nat
  reads : Nat
  serialIn : List Char
  trace : List Event

/-- Append one event to the trace. -/
def World.emit (w : World) (e : Event) : World :=
  { w with trace := w.trace ++ [e] }

/-- The events appended to the trace between `w` and `w1`. -/
def emitted (w w1 : World) : List Event :=
  w1.trace.drop w.trace.length

/-! ## Platform primitives -/

/-- The call `ds.reset()`: 1 when a presence pulse is seen, 0 otherwise. -/
def ds_reset (w : World) : Nat × World :=
  ((if w.presence w.resets then 1 else 0),
   { w with resets := w.resets + 1, trace := w.trace ++ [Event.reset] })

/-- The call `ds.write(v)` with a `uint8_t` argument. -/
def ds_write (v : Nat) (w : World) : World :=
  w.emit (Event.write (v % 256))

/-- The call `ds.read()`: the next byte of the chip, as a `uint8_t`. -/
def ds_read (w : World) : Nat × World :=
  (w.byteAt w.reads % 256,
   { w with reads := w.reads + 1, trace := w.trace ++ [Event.read] })

/-- The call `Serial.print(s)`. -/
def Serial_print (s : String) (w : World) : World :=
  w.emit (Event.print s)

/-- The call `Serial.println(s)`: the text followed by CR LF. -/
def Serial_println (s : String) (w : World) : World :=
  w.emit (Event.print (s ++ "\r\n"))

/-- The call `delay(ms)`. -/
def delay (ms : Nat) (w : World) : World :=
  w.emit (Event.delay ms)

/-- The call `delayMicroseconds(us)`. -/
def delayMicroseconds (us : Nat) (w : World) : World :=
  w.emit (Event.delayMicroseconds us)

/-- The call `pinMode(pin, mode)`. -/
def pinMode (pin : Pin) (mode : Mode) (w : World) : World :=
  w.emit (Event.pinMode pin mode)

/-- The call `digitalWrite(pin, level)`. -/
def digitalWrite (pin : Pin) (level : Level) (w : World) : World :=
  w.emit (Event.digitalWrite pin level)

/-- The cast `(int8_t)v` of a `uint8_t`. -/
def toInt8 (v : Nat) : Int :=
  if v % 256 < 128 then (v % 256 : Nat) else ((v % 256 : Nat) : Int) - 256

/-- The cast `(uint8_t)x` of an `int`. -/
def toUInt8 (x : Int) : Nat :=
  (x % 256).toNat

/-- Arduino macro `constrain(amt, low, high)`:
`((amt)<(low)?(low):((amt)>(high)?(high):(amt)))`. -/
def constrain (amt low high : Int) : Int :=
  if amt < low then low else if amt > high then high else amt

/-- Digits written by `Serial.print(n, BIN)`: base 2, no leading zeros, a
single `0` for zero. -/
def printBIN (n : Nat) : String :=
  String.mk (Nat.toDigits 2 n)

/-- Digits written by `Serial.print(n)` for an integer `n`, base 10. -/
def printDEC (n : Int) : String :=
  toString n

/-! ## The sketch -/

/-- Text printed by `chipReady` when no presence pulse is seen. -/
def noAnswerMsg : String :=
  "Can't perform reset cycle. No answer from chip. there is no device or the bus is shorted or otherwise held low for more than 250uS"

/-- Source `chipReady(print)`: send the reset pulse, fail fast if no sensor. -/
def chipReady (print : Bool) (w : World) : Bool × World :=
  let r := ds_reset w
  if r.1 = 0 then
    (false, if print then Serial_println noAnswerMsg r.2 else r.2)
  else
    (true, r.2)

/-- The loop `for (int i = 0; i < 8; i++) if (cfg < pow(2, i)) Serial.print(B0);`
of `readCFG`, entered at `i`.  The value `pow(2, i)` is the power of two
`2 ^ i`, and `B0` is the integer 0. -/
def readCFG_pad (cfg : Nat) (i : Nat) (w : World) : World :=
  if i < 8 then
    readCFG_pad cfg (i + 1) (if cfg < 2 ^ i then Serial_print (printDEC 0) w else w)
  else
    w
termination_by 8 - i

/-- Source `readCFG`. -/
def readCFG (w : World) : Nat × World :=
  let c := chipReady true w
  if !c.1 then (0, c.2) else
  let w := ds_write READ_CFG c.2
  let r := ds_read w
  let cfg := r.1
  let w := Serial_println "DS1821 CFG Map: " r.2
  let w := Serial_println "D      1" w
  let w := Serial_println "O NTT PS" w
  let w := Serial_println "N VHLTOH" w
  let w := Serial_println "E BFFRLT" w
  let w := readCFG_pad cfg 0 w
  let w := Serial_println (printBIN cfg) w
  (cfg, w)

/-- Source `readTHTL(cmd)`. -/
def readTHTL (cmd : Nat) (w : World) : Int × World :=
  let cmd := cmd % 256
  let c := chipReady true w
  if !c.1 then (0, c.2) else
  let w := ds_write cmd c.2
  let r := ds_read w
  let v := r.1
  let w := if cmd = READ_TH then Serial_print "TH: " r.2 else Serial_print "TL: " r.2
  let w := Serial_println (printDEC (toInt8 v)) w
  (toInt8 v, w)

/-- Source `readTEMP`; the result type is `uint8_t`. -/
def readTEMP (w : World) : Nat × World :=
  let c := chipReady true w
  if !c.1 then (0, c.2) else
  let w := ds_write START_CNV c.2
  let w := delay 1000 w
  let c := chipReady true w
  if !c.1 then (0, c.2) else
  let w := ds_write READ_TEMP c.2
  let r := ds_read w
  let v := r.1
  let w := Serial_print "TEMP: " r.2
  let w := Serial_print (printBIN v) w
  let w := Serial_print " " w
  let w := Serial_println (printDEC v) w
  (v, w)

/-- The loop `while (readedValue != '\n')` of `writeGisteresis`: every
character that arrives is echoed and appended to `inputText`; the loop ends
after the first newline.  When no newline ever arrives the loop does not end
(`none`). -/
def writeGisteresis_readLine : List Char → String → World → Option (String × World)
  | [], _, _ => none
  | c :: cs, inputText, w =>
    let w := Serial_print (String.singleton c) { w with serialIn := cs }
    let inputText := inputText.push c
    if c = '\n' then some (inputText, w) else writeGisteresis_readLine cs inputText w

/-- Source `writeGisteresis(reg)`.  `toInt` is `String::toInt` of the Arduino
core followed by the conversion to `int`, so `toInt inputText` is the value of
the variable `celsius`. -/
def writeGisteresis (toInt : String → Int) (reg : Nat) (w : World) : Option World :=
  let reg := reg % 256
  let w := Serial_println "Enter temperature and press enter" w
  match writeGisteresis_readLine w.serialIn "" w with
  | none => none
  | some (inputText, w) =>
    let celsius := toInt inputText
    let c := chipReady true w
    if !c.1 then some c.2 else
    let t := toUInt8 (constrain celsius (-55) 125)
    let w := ds_write reg c.2
    let w := ds_write t w
    let w := if reg = WRITE_TH then Serial_print "TH" w else Serial_print "TL" w
    let w := Serial_print " Temperature writed: " w
    let w := Serial_println (printDEC celsius) w
    some w

/-- Source `writeCFG(data)`. -/
def writeCFG (data : Nat) (w : World) : World :=
  let c := chipReady true w
  if !c.1 then c.2 else
  let w := ds_write WRITE_CFG c.2
  let w := ds_write data w
  Serial_println "CFG writed. Now you can detach DS1821 from pins and use it" w

/-- The loop `for (uint8_t i = 0; i < 32; i++)` of `exitFromThermostatMode`,
entered at `i`. -/
def exitFromThermostatMode_loop (i : Nat) (w : World) : World :=
  if i < 32 then
    let w := if i % 2 = 0 then digitalWrite Pin.pDQ Level.LOW w
             else digitalWrite Pin.pDQ Level.HIGH w
    let w := delayMicroseconds 1 w
    exitFromThermostatMode_loop (i + 1) w
  else
    w
termination_by 32 - i

/-- Source `exitFromThermostatMode`. -/
def exitFromThermostatMode (w : World) : World :=
  let w := pinMode Pin.pDQ Mode.OUTPUT w
  let w := digitalWrite Pin.pVDD Level.LOW w
  let w := delayMicroseconds 1 w
  let w := exitFromThermostatMode_loop 0 w
  let w := digitalWrite Pin.pVDD Level.HIGH w
  delay 1 w

/-- The string `startInstructions` of `onewireStart`. -/
def startInstructions : String :=
  "\nChip in OneWire mode and ready to program\n\nType one of the following commands to continue:\n'c' to show chip config and TH/TL registers\n't' to show temperarure\n'h' to enter TH register\n'l' to enter TL register\n'0' to switch chip to thermostat mode with pol=0\n'1' to switch chip to thermostat mode with pol=1\n'o' to switch chip to OneWire mode"

/-- Source `onewireStart`. -/
def onewireStart (w : World) : World :=
  let w := Serial_print "Trying communicate in OneWire mode..." w
  let c := chipReady false w
  if c.1 then Serial_println startInstructions c.2 else
  let w := Serial_print "Chip in thermostat mode\nTrying to switch in OneWire mode..." c.2
  let w := exitFromThermostatMode w
  let c := chipReady false w
  if c.1 then
    let w := Serial_print "Switched to OneWire mode." c.2
    Serial_println startInstructions w
  else
    Serial_println "Error ocurred. Exit from thermostat Mode failed. OneWire mode not available. Check chip and connections." c.2

/-! ## Observations on traces -/

/-- Byte transfers on the bus: `ds.write` and `ds.read`. -/
def isTransfer : Event → Bool
  | Event.write _ => true
  | Event.read => true
  | _ => false

/-- The byte transfers of a trace, in order. -/
def transfers (evs : List Event) : List Event :=
  evs.filter isTransfer

/-- Serial output, as opposed to activity on the pins and the bus. -/
def isSerial : Event → Bool
  | Event.print _ => true
  | _ => false

/-- The trace without the serial output: bus operations, pin operations and
delays, in order. -/
def hardware (evs : List Event) : List Event :=
  evs.filter (fun e => !isSerial e)

/-- All text sent to the serial port by a trace. -/
def serialText : List Event → String
  | [] => ""
  | Event.print s :: es => s ++ serialText es
  | _ :: es => serialText es

/-- Total milliseconds spent in `delay` by a trace. -/
def delayMs : List Event → Nat
  | [] => 0
  | Event.delay ms :: es => ms + delayMs es
  | _ :: es => delayMs es

/-- The events strictly after the first `a` and before the next `b`. -/
def between (a b : Event) (evs : List Event) : List Event :=
  ((evs.dropWhile (fun e => e != a)).drop 1).takeWhile (fun e => e != b)

/-- Whether every write to the data pin in the trace happens while the last
level written to `pVDD` is LOW; the first argument is the `pVDD` level on
entry. -/
def togglesWhilePowerCut : Level → List Event → Bool
  | _, [] => true
  | _, Event.digitalWrite Pin.pVDD l :: es => togglesWhilePowerCut l es
  | vdd, Event.digitalWrite Pin.pDQ _ :: es => vdd == Level.LOW && togglesWhilePowerCut vdd es
  | vdd, _ :: es => togglesWhilePowerCut vdd es

/-- The `pVDD` level after a trace, given the level on entry. -/
def vddAfter : Level → List Event → Level
  | vdd, [] => vdd
  | _, Event.digitalWrite Pin.pVDD l :: es => vddAfter l es
  | vdd, _ :: es => vddAfter vdd es

/-- The levels written to the data pin by a trace, in order. -/
def dqLevels : List Event → List Level
  | [] => []
  | Event.digitalWrite Pin.pDQ l :: es => l :: dqLevels es
  | _ :: es => dqLevels es

/-- Echo of the typed characters by the input loop of `writeGisteresis`. -/
def echo (cs : List Char) : List Event :=
  cs.map (fun c => Event.print (String.singleton c))

/-- One LOW/HIGH cycle of the data pin in `exitFromThermostatMode`. -/
def toggleCycle : List Event :=
  [Event.digitalWrite Pin.pDQ Level.LOW, Event.delayMicroseconds 1,
   Event.digitalWrite Pin.pDQ Level.HIGH, Event.delayMicroseconds 1]

/-- The pin sequence of `exitFromThermostatMode`. -/
def exitSequence : List Event :=
  [Event.pinMode Pin.pDQ Mode.OUTPUT, Event.digitalWrite Pin.pVDD Level.LOW,
   Event.delayMicroseconds 1]
  ++ (List.replicate 16 toggleCycle).flatten
  ++ [Event.digitalWrite Pin.pVDD Level.HIGH, Event.delay 1]

/-- The zeros printed by the padding loop of `readCFG` for the byte `cfg`. -/
def padZeros (cfg : Nat) : List Event :=
  ((List.range' 0 8).filter (fun i => decide (cfg < 2 ^ i))).map (fun _ => Event.print "0")

/-- The five header lines printed by `readCFG`. -/
def cfgHeader : List Event :=
  [Event.print "DS1821 CFG Map: \r\n", Event.print "D      1\r\n",
   Event.print "O NTT PS\r\n", Event.print "N VHLTOH\r\n", Event.print "E BFFRLT\r\n"]

/-- Number of runs of `exitFromThermostatMode` in a trace: each run makes
exactly one `pinMode(pDQ, OUTPUT)` call and nothing else does. -/
def forcedExitRuns (evs : List Event) : Nat :=
  evs.count (Event.pinMode Pin.pDQ Mode.OUTPUT)

/-! ## Concrete worlds -/

/-- No chip on the bus: no reset is ever answered. -/
def absentWorld : World :=
  ⟨fun _ => false, 0, fun _ => 0, 0, [], []⟩

/-- A chip that answers every reset and clocks out the byte `b` on every read;
`typed` is what the operator types. -/
def presentWorld (b : Nat) (typed : List Char) : World :=
  ⟨fun _ => true, 0, fun _ => b, 0, typed, []⟩

/-- A chip that answers the first reset only. -/
def firstOnlyWorld : World :=
  ⟨fun n => n == 0, 0, fun _ => 0, 0, [], []⟩

/-- A chip that answers the second reset only. -/
def secondOnlyWorld : World :=
  ⟨fun n => n == 1, 0, fun _ => 0, 0, [], []⟩

/-- No chip on the bus, with text typed by the operator. -/
def absentTypedWorld (typed : List Char) : World :=
  ⟨fun _ => false, 0, fun _ => 0, 0, typed, []⟩

/-- The line `chipReady` prints when the reset is not answered. -/
def diagnostic : Event :=
  Event.print (noAnswerMsg ++ "\r\n")

/-- The digits `readCFG` prints under the header for the byte `cfg`: the
padding zeros followed by `cfg` in binary. -/
def digitLine (cfg : Nat) : String :=
  serialText (padZeros cfg ++ [Event.print (printBIN cfg)])

/-- Value of a string of binary digits. -/
def binValue (s : String) : Nat :=
  s.data.foldl (fun acc c => 2 * acc + (if c = '1' then 1 else 0)) 0

/-! ## Closed forms of the operations -/

theorem emitted_of_trace (w w1 : World) (evs : List Event)
    (h : w1.trace = w.trace ++ evs) : emitted w w1 = evs := by
  simp [emitted, h]

theorem exitFromThermostatMode_loop_step (i : Nat) (w : World) (h : i < 32) :
    exitFromThermostatMode_loop i w =
      exitFromThermostatMode_loop (i + 1)
        (delayMicroseconds 1
          (if i % 2 = 0 then digitalWrite Pin.pDQ Level.LOW w
           else digitalWrite Pin.pDQ Level.HIGH w)) := by
  rw [exitFromThermostatMode_loop]
  simp [h]

theorem exitFromThermostatMode_loop_done (w : World) :
    exitFromThermostatMode_loop 32 w = w := by
  rw [exitFromThermostatMode_loop]
  simp

theorem exitFromThermostatMode_eq (w : World) :
    exitFromThermostatMode w = { w with trace := w.trace ++ exitSequence } := by
  unfold exitFromThermostatMode
  simp only [exitFromThermostatMode_loop_step, exitFromThermostatMode_loop_done,
    Nat.lt_add_one, Nat.reduceLT, Nat.reduceAdd, Nat.reduceMod]
  simp [digitalWrite, delayMicroseconds, pinMode, delay, World.emit, exitSequence,
    toggleCycle, List.replicate]

theorem readCFG_pad_from (cfg k : Nat) : ∀ (i : Nat) (w : World), i + k = 8 →
    readCFG_pad cfg i w =
      { w with trace := w.trace ++
                 ((List.range' i k).filter (fun j => decide (cfg < 2 ^ j))).map
                   (fun _ => Event.print "0") } := by
  induction k with
  | zero =>
    intro i w h
    rw [readCFG_pad]
    simp [show ¬ i < 8 by omega]
  | succ k ih =>
    intro i w h
    rw [readCFG_pad]
    have hi : i < 8 := by omega
    have h0 : printDEC 0 = "0" := by decide
    by_cases hc : cfg < 2 ^ i
    · simp [hi, hc, h0, ih (i + 1) _ (by omega), List.range'_succ, Serial_print, World.emit]
    · simp [hi, hc, ih (i + 1) _ (by omega), List.range'_succ]

theorem readCFG_pad_eq (cfg : Nat) (w : World) :
    readCFG_pad cfg 0 w = { w with trace := w.trace ++ padZeros cfg } :=
  readCFG_pad_from cfg 8 0 w rfl

theorem readCFG_absent (w : World) (h : w.presence w.resets = false) :
    readCFG w = (0, { w with resets := w.resets + 1,
                             trace := w.trace ++ [Event.reset, Event.print (noAnswerMsg ++ "\r\n")] }) := by
  simp [readCFG, chipReady, ds_reset, Serial_println, World.emit, h]

theorem readCFG_present (w : World) (h : w.presence w.resets = true) :
    readCFG w = (w.byteAt w.reads % 256,
      { w with resets := w.resets + 1, reads := w.reads + 1,
               trace := w.trace ++ ([Event.reset, Event.write READ_CFG, Event.read]
                 ++ cfgHeader ++ padZeros (w.byteAt w.reads % 256)
                 ++ [Event.print (printBIN (w.byteAt w.reads % 256) ++ "\r\n")]) }) := by
  simp [readCFG, chipReady, ds_reset, ds_write, ds_read, Serial_println, World.emit, h,
    readCFG_pad_eq, cfgHeader, READ_CFG]

theorem readTHTL_absent (cmd : Nat) (w : World) (h : w.presence w.resets = false) :
    readTHTL cmd w = (0, { w with resets := w.resets + 1,
                                  trace := w.trace ++ [Event.reset, Event.print (noAnswerMsg ++ "\r\n")] }) := by
  simp [readTHTL, chipReady, ds_reset, Serial_println, World.emit, h]

theorem readTHTL_present (cmd : Nat) (w : World) (h : w.presence w.resets = true) :
    readTHTL cmd w = (toInt8 (w.byteAt w.reads % 256),
      { w with resets := w.resets + 1, reads := w.reads + 1,
               trace := w.trace ++ [Event.reset, Event.write (cmd % 256), Event.read,
                 Event.print (if cmd % 256 = READ_TH then "TH: " else "TL: "),
                 Event.print (printDEC (toInt8 (w.byteAt w.reads % 256)) ++ "\r\n")] }) := by
  by_cases hc : cmd % 256 = 161 <;>
    simp [readTHTL, chipReady, ds_reset, ds_write, ds_read, Serial_print, Serial_println,
      World.emit, h, hc, READ_TH]

theorem readTEMP_absent (w : World) (h : w.presence w.resets = false) :
    readTEMP w = (0, { w with resets := w.resets + 1,
                              trace := w.trace ++ [Event.reset, Event.print (noAnswerMsg ++ "\r\n")] }) := by
  simp [readTEMP, chipReady, ds_reset, Serial_println, World.emit, h]

theorem readTEMP_absent_second (w : World) (h1 : w.presence w.resets = true)
    (h2 : w.presence (w.resets + 1) = false) :
    readTEMP w = (0, { w with resets := w.resets + 2,
                              trace := w.trace ++ [Event.reset, Event.write START_CNV, Event.delay 1000, Event.reset,
                                Event.print (noAnswerMsg ++ "\r\n")] }) := by
  simp [readTEMP, chipReady, ds_reset, ds_write, delay, Serial_println, World.emit, h1, h2,
    START_CNV]

theorem readTEMP_present (w : World) (h1 : w.presence w.resets = true)
    (h2 : w.presence (w.resets + 1) = true) :
    readTEMP w = (w.byteAt w.reads % 256,
      { w with resets := w.resets + 2, reads := w.reads + 1,
               trace := w.trace ++ [Event.reset, Event.write START_CNV, Event.delay 1000,
                 Event.reset, Event.write READ_TEMP, Event.read, Event.print "TEMP: ",
                 Event.print (printBIN (w.byteAt w.reads % 256)), Event.print " ",
                 Event.print (printDEC (w.byteAt w.reads % 256 : Nat) ++ "\r\n")] }) := by
  simp [readTEMP, chipReady, ds_reset, ds_write, ds_read, delay, Serial_print, Serial_println,
    World.emit, h1, h2, START_CNV, READ_TEMP]

theorem writeCFG_absent (data : Nat) (w : World) (h : w.presence w.resets = false) :
    writeCFG data w = { w with resets := w.resets + 1,
                               trace := w.trace ++ [Event.reset, Event.print (noAnswerMsg ++ "\r\n")] } := by
  simp [writeCFG, chipReady, ds_reset, Serial_println, World.emit, h]

theorem writeCFG_present (data : Nat) (w : World) (h : w.presence w.resets = true) :
    writeCFG data w = { w with resets := w.resets + 1,
                               trace := w.trace ++ [Event.reset, Event.write WRITE_CFG, Event.write (data % 256),
                                 Event.print "CFG writed. Now you can detach DS1821 from pins and use it\r\n"] } := by
  simp [writeCFG, chipReady, ds_reset, ds_write, Serial_println, World.emit, h, WRITE_CFG]

theorem writeGisteresis_readLine_eq (line rest : List Char) (h : '\n' ∉ line) (txt : String)
    (w : World) :
    writeGisteresis_readLine (line ++ '\n' :: rest) txt w =
      some (String.mk (txt.data ++ line ++ ['\n']),
        { w with serialIn := rest, trace := w.trace ++ echo (line ++ ['\n']) }) := by
  induction line generalizing txt w with
  | nil =>
    simp [writeGisteresis_readLine, Serial_print, World.emit, echo, String.push]
  | cons c cs ih =>
    have hc : c ≠ '\n' := fun e => h (by simp [e])
    have hcs : '\n' ∉ cs := fun e => h (by simp [e])
    simp [writeGisteresis_readLine, hc, ih hcs, Serial_print, World.emit, echo, String.push]

theorem writeGisteresis_readLine_none (cs : List Char) (h : '\n' ∉ cs) (txt : String)
    (w : World) : writeGisteresis_readLine cs txt w = none := by
  induction cs generalizing txt w with
  | nil => rfl
  | cons c cs ih =>
    have hc : c ≠ '\n' := fun e => h (by simp [e])
    have hcs : '\n' ∉ cs := fun e => h (by simp [e])
    simp [writeGisteresis_readLine, hc, ih hcs]

theorem writeGisteresis_absent (toInt : String → Int) (reg : Nat) (w : World)
    (line rest : List Char) (hl : '\n' ∉ line) (hin : w.serialIn = line ++ '\n' :: rest)
    (hp : w.presence w.resets = false) :
    writeGisteresis toInt reg w = some
      { w with serialIn := rest, resets := w.resets + 1,
               trace := w.trace ++ ([Event.print "Enter temperature and press enter\r\n"]
                 ++ echo (line ++ ['\n'])
                 ++ [Event.reset, Event.print (noAnswerMsg ++ "\r\n")]) } := by
  simp [writeGisteresis, Serial_println, World.emit, hin, writeGisteresis_readLine_eq line rest hl,
    chipReady, ds_reset, hp]

theorem writeGisteresis_present (toInt : String → Int) (reg : Nat) (w : World)
    (line rest : List Char) (hl : '\n' ∉ line) (hin : w.serialIn = line ++ '\n' :: rest)
    (hp : w.presence w.resets = true) :
    writeGisteresis toInt reg w = some
      { w with serialIn := rest, resets := w.resets + 1,
               trace := w.trace ++ ([Event.print "Enter temperature and press enter\r\n"]
        ++ echo (line ++ ['\n'])
        ++ [Event.reset, Event.write (reg % 256),
            Event.write (toUInt8 (constrain (toInt (String.mk (line ++ ['\n']))) (-55) 125) % 256),
            Event.print (if reg % 256 = WRITE_TH then "TH" else "TL"),
            Event.print " Temperature writed: ",
            Event.print (printDEC (toInt (String.mk (line ++ ['\n']))) ++ "\r\n")]) } := by
  by_cases hr : reg % 256 = 1 <;>
    simp [writeGisteresis, Serial_println, Serial_print, World.emit, hin,
      writeGisteresis_readLine_eq line rest hl, chipReady, ds_reset, ds_write, hp, hr, WRITE_TH]

theorem onewireStart_present (w : World) (h : w.presence w.resets = true) :
    onewireStart w = { w with resets := w.resets + 1,
                              trace := w.trace ++ [Event.print "Trying communicate in OneWire mode...", Event.reset,
                                Event.print (startInstructions ++ "\r\n")] } := by
  simp [onewireStart, chipReady, ds_reset, Serial_print, Serial_println, World.emit, h]

theorem onewireStart_switched (w : World) (h1 : w.presence w.resets = false)
    (h2 : w.presence (w.resets + 1) = true) :
    onewireStart w = { w with resets := w.resets + 2,
                              trace := w.trace ++ ([Event.print "Trying communicate in OneWire mode...", Event.reset,
                                Event.print "Chip in thermostat mode\nTrying to switch in OneWire mode..."]
                                ++ exitSequence
                                ++ [Event.reset, Event.print "Switched to OneWire mode.",
                                    Event.print (startInstructions ++ "\r\n")]) } := by
  simp [onewireStart, chipReady, ds_reset, Serial_print, Serial_println, World.emit, h1, h2,
    exitFromThermostatMode_eq]

theorem onewireStart_failed (w : World) (h1 : w.presence w.resets = false)
    (h2 : w.presence (w.resets + 1) = false) :
    onewireStart w = { w with resets := w.resets + 2,
                              trace := w.trace ++ ([Event.print "Trying communicate in OneWire mode...", Event.reset,
                                Event.print "Chip in thermostat mode\nTrying to switch in OneWire mode..."]
                                ++ exitSequence
                                ++ [Event.reset, Event.print "Error ocurred. Exit from thermostat Mode failed. OneWire mode not available. Check chip and connections.\r\n"]) } := by
  simp [onewireStart, chipReady, ds_reset, Serial_print, Serial_println, World.emit, h1, h2,
    exitFromThermostatMode_eq]

theorem transfers_echo (cs : List Char) : transfers (echo cs) = [] := by
  induction cs with
  | nil => rfl
  | cons c cs ih => simp [transfers, echo, isTransfer]

theorem hardware_echo (cs : List Char) : hardware (echo cs) = [] := by
  induction cs with
  | nil => rfl
  | cons c cs ih => simp [hardware, echo, isSerial]

theorem hardware_padZeros (cfg : Nat) : hardware (padZeros cfg) = [] := by
  unfold padZeros hardware
  induction (List.filter (fun i => decide (cfg < 2 ^ i)) (List.range' 0 8)) with
  | nil => rfl
  | cons i l ih => simp [isSerial]

theorem toInt8_toUInt8 (x : Int) (h1 : -55 ≤ x) (h2 : x ≤ 125) : toInt8 (toUInt8 x) = x := by
  unfold toInt8 toUInt8
  split_ifs <;> omega

theorem toUInt8_lt (x : Int) : toUInt8 x < 256 := by
  unfold toUInt8
  omega

theorem constrain_eq_min_max (c : Int) : constrain c (-55) 125 = min (max c (-55)) 125 := by
  unfold constrain
  split_ifs <;> omega

/-! ## Claims -/

/-- C1: when the reset that opens a transaction is not answered, `readCFG`,
`readTHTL` (any command), `readTEMP`, `writeCFG` (any data byte) and
`writeGisteresis` (any register, any typed line) return without a single
`ds.write` or `ds.read`; and when `readTEMP` is answered at its first reset
but not at its second, its only byte transfer is the write of START_CNV. -/
theorem absent_reset_aborts_without_transfer (w : World) :
    (w.presence w.resets = false →
      transfers (emitted w (readCFG w).2) = [] ∧
      (∀ cmd, transfers (emitted w (readTHTL cmd w).2) = []) ∧
      transfers (emitted w (readTEMP w).2) = [] ∧
      (∀ data, transfers (emitted w (writeCFG data w)) = []) ∧
      (∀ (toInt : String → Int) (reg : Nat) (line rest : List Char),
        '\n' ∉ line → w.serialIn = line ++ '\n' :: rest →
        ∃ w1, writeGisteresis toInt reg w = some w1 ∧ transfers (emitted w w1) = [])) ∧
    (w.presence w.resets = true → w.presence (w.resets + 1) = false →
      transfers (emitted w (readTEMP w).2) = [Event.write 0xEE]) := by
  refine ⟨fun h => ⟨?_, ?_, ?_, ?_, ?_⟩, fun h1 h2 => ?_⟩
  · rw [readCFG_absent w h, emitted_of_trace w _ _ rfl]
    rfl
  · intro cmd
    rw [readTHTL_absent cmd w h, emitted_of_trace w _ _ rfl]
    rfl
  · rw [readTEMP_absent w h, emitted_of_trace w _ _ rfl]
    rfl
  · intro data
    rw [writeCFG_absent data w h, emitted_of_trace w _ _ rfl]
    rfl
  · intro toInt reg line rest hl hin
    refine ⟨_, writeGisteresis_absent toInt reg w line rest hl hin h, ?_⟩
    rw [emitted_of_trace w _ _ rfl]
    simp only [transfers, List.filter_append]
    rw [show List.filter isTransfer (echo (line ++ ['\n'])) = [] from transfers_echo _]
    rfl
  · rw [readTEMP_absent_second w h1 h2, emitted_of_trace w _ _ rfl]
    rfl

/-- Witness of C1: an empty bus, with and without a typed line, and a chip that
answers the first reset only. -/
theorem absent_reset_aborts_without_transfer_witness :
    transfers (emitted absentWorld (readCFG absentWorld).2) = [] ∧
    (∃ w1, writeGisteresis (fun _ => 20) WRITE_TH (absentTypedWorld ['2', '0', '\n']) = some w1
      ∧ transfers (emitted (absentTypedWorld ['2', '0', '\n']) w1) = []) ∧
    transfers (emitted firstOnlyWorld (readTEMP firstOnlyWorld).2) = [Event.write 0xEE] :=
  ⟨((absent_reset_aborts_without_transfer absentWorld).1 rfl).1,
   ((absent_reset_aborts_without_transfer (absentTypedWorld ['2', '0', '\n'])).1 rfl).2.2.2.2
      (fun _ => 20) WRITE_TH ['2', '0'] [] (by decide) rfl,
   (absent_reset_aborts_without_transfer firstOnlyWorld).2 rfl rfl⟩

/-- C2: with the chip present and a line typed by the operator, for either
threshold register `writeGisteresis` returns, and what it puts on the bus is
the reset, the register command byte and one data byte; the data byte is the
8-bit two's-complement encoding of `min (max celsius (-55)) 125`, read as a
signed byte it lies in [-55, 125], 130 is sent as 125 and -60 as 0xC9. -/
theorem writeGisteresis_sends_clamped (toInt : String → Int) (reg : Nat) (w : World)
    (line rest : List Char) (celsius : Int) (hreg : reg = WRITE_TH ∨ reg = WRITE_TL)
    (hl : '\n' ∉ line) (hin : w.serialIn = line ++ '\n' :: rest)
    (hc : toInt (String.mk (line ++ ['\n'])) = celsius) (hp : w.presence w.resets = true) :
    (∃ w1, writeGisteresis toInt reg w = some w1 ∧
      hardware (emitted w w1) = [Event.reset, Event.write reg,
        Event.write (toUInt8 (min (max celsius (-55)) 125))] ∧
      transfers (emitted w w1) = [Event.write reg,
        Event.write (toUInt8 (min (max celsius (-55)) 125))]) ∧
    toUInt8 (min (max celsius (-55)) 125) < 256 ∧
    toInt8 (toUInt8 (min (max celsius (-55)) 125)) = min (max celsius (-55)) 125 ∧
    -55 ≤ toInt8 (toUInt8 (min (max celsius (-55)) 125)) ∧
    toInt8 (toUInt8 (min (max celsius (-55)) 125)) ≤ 125 ∧
    (celsius = 130 → toUInt8 (min (max celsius (-55)) 125) = 125) ∧
    (celsius = -60 → toUInt8 (min (max celsius (-55)) 125) = 0xC9) := by
  have hreg256 : reg % 256 = reg := by
    rcases hreg with h | h <;> simp [h, WRITE_TH, WRITE_TL]
  have hlo : -55 ≤ min (max celsius (-55)) 125 := by simp
  have hhi : min (max celsius (-55)) 125 ≤ 125 := by simp
  have hw := writeGisteresis_present toInt reg w line rest hl hin hp
  rw [hc, constrain_eq_min_max, Nat.mod_eq_of_lt (toUInt8_lt _), hreg256] at hw
  refine ⟨⟨_, hw, ?_, ?_⟩, toUInt8_lt _, toInt8_toUInt8 _ hlo hhi, ?_, ?_, ?_, ?_⟩
  · rw [emitted_of_trace w _ _ rfl]
    simp only [hardware, List.filter_append]
    rw [show List.filter (fun e => !isSerial e) (echo (line ++ ['\n'])) = [] from hardware_echo _]
    simp [isSerial]
  · rw [emitted_of_trace w _ _ rfl]
    simp only [transfers, List.filter_append]
    rw [show List.filter isTransfer (echo (line ++ ['\n'])) = [] from transfers_echo _]
    simp [isTransfer]
  · rw [toInt8_toUInt8 _ hlo hhi]
    exact hlo
  · rw [toInt8_toUInt8 _ hlo hhi]
    exact hhi
  · intro h
    rw [h]
    decide
  · intro h
    rw [h]
    decide

/-- Witness of C2: the operator types `-60` for TL on a present chip. -/
theorem writeGisteresis_sends_clamped_witness :
    (∃ w1, writeGisteresis (fun _ => -60) WRITE_TL (presentWorld 0 ['-', '6', '0', '\n'])
        = some w1 ∧
      hardware (emitted (presentWorld 0 ['-', '6', '0', '\n']) w1)
        = [Event.reset, Event.write WRITE_TL, Event.write (toUInt8 (min (max (-60) (-55)) 125))] ∧
      transfers (emitted (presentWorld 0 ['-', '6', '0', '\n']) w1)
        = [Event.write WRITE_TL, Event.write (toUInt8 (min (max (-60) (-55)) 125))]) ∧
    toUInt8 (min (max (-60) (-55)) 125) < 256 ∧
    toInt8 (toUInt8 (min (max (-60) (-55)) 125)) = min (max (-60) (-55)) 125 ∧
    -55 ≤ toInt8 (toUInt8 (min (max (-60) (-55)) 125)) ∧
    toInt8 (toUInt8 (min (max (-60) (-55)) 125)) ≤ 125 ∧
    ((-60 : Int) = 130 → toUInt8 (min (max (-60) (-55)) 125) = 125) ∧
    ((-60 : Int) = -60 → toUInt8 (min (max (-60) (-55)) 125) = 0xC9) :=
  writeGisteresis_sends_clamped (fun _ => -60) WRITE_TL (presentWorld 0 ['-', '6', '0', '\n'])
    ['-', '6', '0'] [] (-60) (Or.inr rfl) (by decide) rfl rfl rfl

/-- C3: `onewireStart` for the two presence answers `p1 = w.presence w.resets`
and `p2 = w.presence (w.resets + 1)`.  Answered at once, it prints the start
instructions after one reset and no pin is touched; not answered, it runs the
forced-exit pin sequence once, resets once more and prints the switched
message and the instructions when answered, the failure message when not.  In
every case at most two resets and at most one forced exit are made. -/
theorem onewireStart_outcomes (w : World) :
    (w.presence w.resets = true →
      emitted w (onewireStart w) =
        [Event.print "Trying communicate in OneWire mode...", Event.reset,
         Event.print (startInstructions ++ "\r\n")]
      ∧ (emitted w (onewireStart w)).count Event.reset = 1
      ∧ forcedExitRuns (emitted w (onewireStart w)) = 0) ∧
    (w.presence w.resets = false → w.presence (w.resets + 1) = true →
      emitted w (onewireStart w) =
        [Event.print "Trying communicate in OneWire mode...", Event.reset,
         Event.print "Chip in thermostat mode\nTrying to switch in OneWire mode..."]
        ++ exitSequence
        ++ [Event.reset, Event.print "Switched to OneWire mode.",
            Event.print (startInstructions ++ "\r\n")]
      ∧ (emitted w (onewireStart w)).count Event.reset = 2
      ∧ forcedExitRuns (emitted w (onewireStart w)) = 1) ∧
    (w.presence w.resets = false → w.presence (w.resets + 1) = false →
      emitted w (onewireStart w) =
        [Event.print "Trying communicate in OneWire mode...", Event.reset,
         Event.print "Chip in thermostat mode\nTrying to switch in OneWire mode..."]
        ++ exitSequence
        ++ [Event.reset, Event.print "Error ocurred. Exit from thermostat Mode failed. OneWire mode not available. Check chip and connections.\r\n"]
      ∧ (emitted w (onewireStart w)).count Event.reset = 2
      ∧ forcedExitRuns (emitted w (onewireStart w)) = 1) ∧
    (emitted w (onewireStart w)).count Event.reset ≤ 2 ∧
    forcedExitRuns (emitted w (onewireStart w)) ≤ 1 := by
  have hA : w.presence w.resets = true →
      emitted w (onewireStart w) =
        [Event.print "Trying communicate in OneWire mode...", Event.reset,
         Event.print (startInstructions ++ "\r\n")] := fun h => by
    rw [onewireStart_present w h, emitted_of_trace w _ _ rfl]
  have hB : w.presence w.resets = false → w.presence (w.resets + 1) = true →
      emitted w (onewireStart w) =
        [Event.print "Trying communicate in OneWire mode...", Event.reset,
         Event.print "Chip in thermostat mode\nTrying to switch in OneWire mode..."]
        ++ exitSequence
        ++ [Event.reset, Event.print "Switched to OneWire mode.",
            Event.print (startInstructions ++ "\r\n")] := fun h1 h2 => by
    rw [onewireStart_switched w h1 h2, emitted_of_trace w _ _ rfl]
  have hC : w.presence w.resets = false → w.presence (w.resets + 1) = false →
      emitted w (onewireStart w) =
        [Event.print "Trying communicate in OneWire mode...", Event.reset,
         Event.print "Chip in thermostat mode\nTrying to switch in OneWire mode..."]
        ++ exitSequence
        ++ [Event.reset, Event.print "Error ocurred. Exit from thermostat Mode failed. OneWire mode not available. Check chip and connections.\r\n"] := fun h1 h2 => by
    rw [onewireStart_failed w h1 h2, emitted_of_trace w _ _ rfl]
  have cA : w.presence w.resets = true →
      (emitted w (onewireStart w)).count Event.reset = 1
      ∧ forcedExitRuns (emitted w (onewireStart w)) = 0 := fun h => by
    rw [hA h]
    exact ⟨by decide, by decide⟩
  have cB : w.presence w.resets = false → w.presence (w.resets + 1) = true →
      (emitted w (onewireStart w)).count Event.reset = 2
      ∧ forcedExitRuns (emitted w (onewireStart w)) = 1 := fun h1 h2 => by
    rw [hB h1 h2]
    exact ⟨by decide, by decide⟩
  have cC : w.presence w.resets = false → w.presence (w.resets + 1) = false →
      (emitted w (onewireStart w)).count Event.reset = 2
      ∧ forcedExitRuns (emitted w (onewireStart w)) = 1 := fun h1 h2 => by
    rw [hC h1 h2]
    exact ⟨by decide, by decide⟩
  refine ⟨fun h => ⟨hA h, cA h⟩, fun h1 h2 => ⟨hB h1 h2, cB h1 h2⟩,
    fun h1 h2 => ⟨hC h1 h2, cC h1 h2⟩, ?_, ?_⟩
  · cases h1 : w.presence w.resets
    · cases h2 : w.presence (w.resets + 1)
      · exact Nat.le_of_eq (cC h1 h2).1
      · exact Nat.le_of_eq (cB h1 h2).1
    · rw [(cA h1).1]
      decide
  · cases h1 : w.presence w.resets
    · cases h2 : w.presence (w.resets + 1)
      · exact Nat.le_of_eq (cC h1 h2).2
      · exact Nat.le_of_eq (cB h1 h2).2
    · rw [(cA h1).2]
      decide

/-- Witness of C3: a chip that answers only after the forced exit. -/
theorem onewireStart_outcomes_witness :
    emitted secondOnlyWorld (onewireStart secondOnlyWorld) =
        [Event.print "Trying communicate in OneWire mode...", Event.reset,
         Event.print "Chip in thermostat mode\nTrying to switch in OneWire mode..."]
        ++ exitSequence
        ++ [Event.reset, Event.print "Switched to OneWire mode.",
            Event.print (startInstructions ++ "\r\n")]
      ∧ (emitted secondOnlyWorld (onewireStart secondOnlyWorld)).count Event.reset = 2
      ∧ forcedExitRuns (emitted secondOnlyWorld (onewireStart secondOnlyWorld)) = 1 :=
  (onewireStart_outcomes secondOnlyWorld).2.1 rfl rfl

/-- C4: when both presence checks of `readTEMP` are answered, what it does on
the bus is reset, write START_CNV, delay 1000 ms, reset, write READ_TEMP, read
one byte; it makes exactly two resets, and at least 1000 ms of delay lie
between the START_CNV write and the READ_TEMP write. -/
theorem readTEMP_bus_sequence (w : World) (h1 : w.presence w.resets = true)
    (h2 : w.presence (w.resets + 1) = true) :
    hardware (emitted w (readTEMP w).2) =
      [Event.reset, Event.write 0xEE, Event.delay 1000,
       Event.reset, Event.write 0xAA, Event.read]
    ∧ (emitted w (readTEMP w).2).count Event.reset = 2
    ∧ 1000 ≤ delayMs (between (Event.write START_CNV) (Event.write READ_TEMP)
        (emitted w (readTEMP w).2)) := by
  rw [readTEMP_present w h1 h2, emitted_of_trace w _ _ rfl]
  refine ⟨by simp [hardware, isSerial, START_CNV, READ_TEMP], by simp [List.count_cons], ?_⟩
  simp [between, List.dropWhile, List.takeWhile, delayMs, START_CNV, READ_TEMP]

/-- Witness of C4: a chip that answers every reset. -/
theorem readTEMP_bus_sequence_witness :
    hardware (emitted (presentWorld 25 []) (readTEMP (presentWorld 25 [])).2) =
      [Event.reset, Event.write 0xEE, Event.delay 1000,
       Event.reset, Event.write 0xAA, Event.read]
    ∧ (emitted (presentWorld 25 []) (readTEMP (presentWorld 25 [])).2).count Event.reset = 2
    ∧ 1000 ≤ delayMs (between (Event.write START_CNV) (Event.write READ_TEMP)
        (emitted (presentWorld 25 []) (readTEMP (presentWorld 25 [])).2)) :=
  readTEMP_bus_sequence (presentWorld 25 []) rfl rfl

/-- C7: for READ_TH and READ_TL and a present chip supplying the byte `b`,
`readTHTL` does reset, write the command byte, read one byte on the bus, and
returns `b` as a signed byte: `b` below 128, `b - 256` from 128 on, without
clamping, so 0x80 comes back as -128. -/
theorem readTHTL_signed_unclamped (cmd b : Nat) (w : World)
    (hcmd : cmd = READ_TH ∨ cmd = READ_TL) (hp : w.presence w.resets = true)
    (hb : w.byteAt w.reads = b) (hb256 : b < 256) :
    hardware (emitted w (readTHTL cmd w).2) = [Event.reset, Event.write cmd, Event.read]
    ∧ (readTHTL cmd w).1 = (if b < 128 then (b : Int) else (b : Int) - 256)
    ∧ (b = 0x80 → (readTHTL cmd w).1 = -128) := by
  have hcmd256 : cmd % 256 = cmd := by
    rcases hcmd with h | h <;> simp [h, READ_TH, READ_TL]
  have hv : toInt8 (w.byteAt w.reads % 256) = (if b < 128 then (b : Int) else (b : Int) - 256) := by
    rw [hb, Nat.mod_eq_of_lt hb256]
    unfold toInt8
    rw [Nat.mod_eq_of_lt hb256]
  rw [readTHTL_present cmd w hp, emitted_of_trace w _ _ rfl, hcmd256]
  refine ⟨by simp [hardware, isSerial], hv, ?_⟩
  intro h
  simp only [hv, h]
  decide

/-- Witness of C7: the stored byte 0x80 read from TH. -/
theorem readTHTL_signed_unclamped_witness :
    hardware (emitted (presentWorld 0x80 []) (readTHTL READ_TH (presentWorld 0x80 [])).2)
      = [Event.reset, Event.write READ_TH, Event.read]
    ∧ (readTHTL READ_TH (presentWorld 0x80 [])).1
      = (if 0x80 < 128 then ((0x80 : Nat) : Int) else ((0x80 : Nat) : Int) - 256)
    ∧ (0x80 = 0x80 → (readTHTL READ_TH (presentWorld 0x80 [])).1 = -128) :=
  readTHTL_signed_unclamped READ_TH 0x80 (presentWorld 0x80 []) (Or.inl rfl) rfl rfl (by decide)

/-- C8 as stated fails: for the chip that answers READ_CFG with 0b10010100 the
byte returned by `readCFG` has, under the masks of the sketch, THF set and TLF
clear, not THF clear and TLF set. -/
theorem readCFG_byte_0x94_flags_counterexample :
    ¬ ((readCFG (presentWorld 0b10010100 [])).1 &&& THF = 0 ∧
       (readCFG (presentWorld 0b10010100 [])).1 &&& TLF = TLF) := by
  rw [readCFG_present (presentWorld 0b10010100 []) rfl]
  decide

/-- C8 amended: a present chip that answers READ_CFG with 0b10010100 makes
`readCFG` return 0x94 after reset, write 0xAC, read; under the masks of the
sketch that byte has DONE set, NVB clear, THF set, TLF clear, TRMODE set, POL
clear and ONESHOT clear. -/
theorem readCFG_byte_0x94 (w : World) (hp : w.presence w.resets = true)
    (hb : w.byteAt w.reads = 0b10010100) :
    (readCFG w).1 = 0x94
    ∧ hardware (emitted w (readCFG w).2) = [Event.reset, Event.write 0xAC, Event.read]
    ∧ (readCFG w).1 &&& DONE = DONE
    ∧ (readCFG w).1 &&& NVB = 0
    ∧ (readCFG w).1 &&& THF = THF
    ∧ (readCFG w).1 &&& TLF = 0
    ∧ (readCFG w).1 &&& TRMODE = TRMODE
    ∧ (readCFG w).1 &&& POL = 0
    ∧ (readCFG w).1 &&& ONESHOT = 0 := by
  have hv : (readCFG w).1 = 148 := by
    rw [readCFG_present w hp, hb]
  have hh : hardware (emitted w (readCFG w).2) = [Event.reset, Event.write 0xAC, Event.read] := by
    rw [readCFG_present w hp, emitted_of_trace w _ _ rfl]
    simp only [hardware, List.filter_append]
    rw [show List.filter (fun e => !isSerial e) (padZeros (w.byteAt w.reads % 256)) = []
      from hardware_padZeros _]
    rfl
  rw [hv]
  exact ⟨rfl, hh, by decide, by decide, by decide, by decide, by decide, by decide, by decide⟩

/-- Witness of C8 amended: the chip of the scenario. -/
theorem readCFG_byte_0x94_witness :
    (readCFG (presentWorld 0b10010100 [])).1 = 0x94
    ∧ hardware (emitted (presentWorld 0b10010100 []) (readCFG (presentWorld 0b10010100 [])).2)
      = [Event.reset, Event.write 0xAC, Event.read]
    ∧ (readCFG (presentWorld 0b10010100 [])).1 &&& DONE = DONE
    ∧ (readCFG (presentWorld 0b10010100 [])).1 &&& NVB = 0
    ∧ (readCFG (presentWorld 0b10010100 [])).1 &&& THF = THF
    ∧ (readCFG (presentWorld 0b10010100 [])).1 &&& TLF = 0
    ∧ (readCFG (presentWorld 0b10010100 [])).1 &&& TRMODE = TRMODE
    ∧ (readCFG (presentWorld 0b10010100 [])).1 &&& POL = 0
    ∧ (readCFG (presentWorld 0b10010100 [])).1 &&& ONESHOT = 0 :=
  readCFG_byte_0x94 (presentWorld 0b10010100 []) rfl rfl

/-- C9: every call of `exitFromThermostatMode` makes the same calls: data pin
to OUTPUT, VDD LOW, 1 us, then 16 cycles of data pin LOW, 1 us, data pin HIGH,
1 us, then VDD HIGH and 1 ms.  The data pin is written 32 times, only while VDD
is LOW; VDD is HIGH at the end; no reset and no byte transfer is made and the
oracles are not consumed. -/
theorem exitFromThermostatMode_sequence (w : World) :
    emitted w (exitFromThermostatMode w) =
      [Event.pinMode Pin.pDQ Mode.OUTPUT, Event.digitalWrite Pin.pVDD Level.LOW,
       Event.delayMicroseconds 1]
      ++ (List.replicate 16
          [Event.digitalWrite Pin.pDQ Level.LOW, Event.delayMicroseconds 1,
           Event.digitalWrite Pin.pDQ Level.HIGH, Event.delayMicroseconds 1]).flatten
      ++ [Event.digitalWrite Pin.pVDD Level.HIGH, Event.delay 1]
    ∧ dqLevels (emitted w (exitFromThermostatMode w))
      = (List.replicate 16 [Level.LOW, Level.HIGH]).flatten
    ∧ (dqLevels (emitted w (exitFromThermostatMode w))).length = 32
    ∧ togglesWhilePowerCut Level.HIGH (emitted w (exitFromThermostatMode w)) = true
    ∧ vddAfter Level.HIGH (emitted w (exitFromThermostatMode w)) = Level.HIGH
    ∧ (emitted w (exitFromThermostatMode w)).count Event.reset = 0
    ∧ transfers (emitted w (exitFromThermostatMode w)) = []
    ∧ (exitFromThermostatMode w).resets = w.resets
    ∧ (exitFromThermostatMode w).reads = w.reads := by
  rw [exitFromThermostatMode_eq w, emitted_of_trace w _ _ rfl]
  exact ⟨rfl, by decide, by decide, by decide, by decide, by decide, by decide, rfl, rfl⟩

theorem serialText_append (xs ys : List Event) :
    serialText (xs ++ ys) = serialText xs ++ serialText ys := by
  induction xs with
  | nil => simp [serialText]
  | cons e es ih =>
    cases e <;> simp [serialText, ih, String.append_assoc]

theorem not_mem_padZeros (cfg : Nat) : diagnostic ∉ padZeros cfg := by
  unfold padZeros
  intro h
  rcases List.mem_map.1 h with ⟨_, _, h0⟩
  exact absurd h0 (by decide)

set_option maxRecDepth 100000 in
theorem prints_ne_diagnostic (b : Nat) (h : b < 256) :
    Event.print (printBIN b ++ "\r\n") ≠ diagnostic ∧ Event.print (printBIN b) ≠ diagnostic
    ∧ Event.print (printDEC (b : Nat) ++ "\r\n") ≠ diagnostic
    ∧ Event.print (printDEC (toInt8 b) ++ "\r\n") ≠ diagnostic := by
  revert b
  decide

/-- C5 as stated fails: with no chip on the bus `readCFG`, `readTHTL` and
`readTEMP` return the same value as with a present chip whose byte is 0x00. -/
theorem unavailable_value_counterexample :
    absentWorld.presence absentWorld.resets = false
    ∧ (presentWorld 0 []).presence (presentWorld 0 []).resets = true
    ∧ (readCFG absentWorld).1 = (readCFG (presentWorld 0 [])).1
    ∧ (readTHTL READ_TH absentWorld).1 = (readTHTL READ_TH (presentWorld 0 [])).1
    ∧ (readTEMP absentWorld).1 = (readTEMP (presentWorld 0 [])).1 := by
  rw [readCFG_absent absentWorld rfl, readCFG_present (presentWorld 0 []) rfl,
    readTHTL_absent _ absentWorld rfl, readTHTL_present _ (presentWorld 0 []) rfl,
    readTEMP_absent absentWorld rfl, readTEMP_present (presentWorld 0 []) rfl rfl]
  decide

/-- C5 amended: when the mandatory reset is not answered, `readCFG`, `readTHTL`
and `readTEMP` (for either of its two resets) return 0 and print the no-answer
line; when the resets are answered they return the byte of the chip (as a
signed byte in `readTHTL`) and never print that line. -/
theorem unavailable_reported_by_diagnostic (w : World) :
    (w.presence w.resets = false →
      ((readCFG w).1 = 0 ∧ diagnostic ∈ emitted w (readCFG w).2) ∧
      (∀ cmd, (readTHTL cmd w).1 = 0 ∧ diagnostic ∈ emitted w (readTHTL cmd w).2) ∧
      ((readTEMP w).1 = 0 ∧ diagnostic ∈ emitted w (readTEMP w).2)) ∧
    (w.presence w.resets = true → w.presence (w.resets + 1) = false →
      (readTEMP w).1 = 0 ∧ diagnostic ∈ emitted w (readTEMP w).2) ∧
    (w.presence w.resets = true →
      ((readCFG w).1 = w.byteAt w.reads % 256 ∧ diagnostic ∉ emitted w (readCFG w).2) ∧
      (∀ cmd, (readTHTL cmd w).1 = toInt8 (w.byteAt w.reads)
        ∧ diagnostic ∉ emitted w (readTHTL cmd w).2)) ∧
    (w.presence w.resets = true → w.presence (w.resets + 1) = true →
      (readTEMP w).1 = w.byteAt w.reads % 256 ∧ diagnostic ∉ emitted w (readTEMP w).2) := by
  have hb : w.byteAt w.reads % 256 < 256 := Nat.mod_lt _ (by decide)
  obtain ⟨n1, n2, n3, n4⟩ := prints_ne_diagnostic _ hb
  refine ⟨fun h => ⟨?_, fun cmd => ?_, ?_⟩, fun h1 h2 => ?_, fun h => ⟨?_, fun cmd => ?_⟩,
    fun h1 h2 => ?_⟩
  · rw [readCFG_absent w h, emitted_of_trace w _ _ rfl]
    exact ⟨rfl, by simp [diagnostic]⟩
  · rw [readTHTL_absent cmd w h, emitted_of_trace w _ _ rfl]
    exact ⟨rfl, by simp [diagnostic]⟩
  · rw [readTEMP_absent w h, emitted_of_trace w _ _ rfl]
    exact ⟨rfl, by simp [diagnostic]⟩
  · rw [readTEMP_absent_second w h1 h2, emitted_of_trace w _ _ rfl]
    exact ⟨rfl, by simp [diagnostic]⟩
  · rw [readCFG_present w h, emitted_of_trace w _ _ rfl]
    refine ⟨rfl, ?_⟩
    simp only [List.mem_append, List.mem_singleton, not_or]
    exact ⟨⟨⟨by decide, by decide⟩, not_mem_padZeros _⟩, fun e => n1 e.symm⟩
  · rw [readTHTL_present cmd w h, emitted_of_trace w _ _ rfl]
    refine ⟨by simp [toInt8], ?_⟩
    by_cases hc : cmd % 256 = READ_TH
    · simp only [hc, if_true, List.mem_cons, List.mem_singleton, not_or]
      exact ⟨by simp [diagnostic], by simp [diagnostic], by simp [diagnostic], by decide,
        fun e => n4 e.symm, by simp⟩
    · simp only [hc, if_false, List.mem_cons, List.mem_singleton, not_or]
      exact ⟨by simp [diagnostic], by simp [diagnostic], by simp [diagnostic], by decide,
        fun e => n4 e.symm, by simp⟩
  · rw [readTEMP_present w h1 h2, emitted_of_trace w _ _ rfl]
    refine ⟨rfl, ?_⟩
    simp only [List.mem_cons, List.mem_singleton, not_or]
    exact ⟨by decide, by decide, by decide, by decide, by decide, by decide, by decide,
      fun e => n2 e.symm, by decide, fun e => n3 e.symm, by simp⟩

/-- Witness of C5 amended: an empty bus, a chip that answers the first reset
only, and a chip that answers every reset with the byte 0x00. -/
theorem unavailable_reported_by_diagnostic_witness :
    ((readCFG absentWorld).1 = 0 ∧ diagnostic ∈ emitted absentWorld (readCFG absentWorld).2) ∧
    ((readTEMP firstOnlyWorld).1 = 0
      ∧ diagnostic ∈ emitted firstOnlyWorld (readTEMP firstOnlyWorld).2) ∧
    ((readCFG (presentWorld 0 [])).1 = 0 % 256
      ∧ diagnostic ∉ emitted (presentWorld 0 []) (readCFG (presentWorld 0 [])).2) ∧
    ((readTEMP (presentWorld 0 [])).1 = 0 % 256
      ∧ diagnostic ∉ emitted (presentWorld 0 []) (readTEMP (presentWorld 0 [])).2) :=
  ⟨((unavailable_reported_by_diagnostic absentWorld).1 rfl).1,
   (unavailable_reported_by_diagnostic firstOnlyWorld).2.1 rfl rfl,
   ((unavailable_reported_by_diagnostic (presentWorld 0 [])).2.2.1 rfl).1,
   (unavailable_reported_by_diagnostic (presentWorld 0 [])).2.2.2 rfl rfl⟩

/-- C6 fails on the code: for the chip byte 0xC9 `readTEMP` returns 201 and
prints `TEMP: 11001001 201`, whereas the signed reading of 0xC9 is -55. -/
theorem readTEMP_byte_0xC9_unsigned :
    (readTEMP (presentWorld 0xC9 [])).1 = 201
    ∧ ((readTEMP (presentWorld 0xC9 [])).1 : Int) ≠ toInt8 0xC9
    ∧ toInt8 0xC9 = -55
    ∧ serialText (emitted (presentWorld 0xC9 []) (readTEMP (presentWorld 0xC9 [])).2)
      = "TEMP: 11001001 201\r\n" := by
  rw [readTEMP_present (presentWorld 0xC9 []) rfl rfl, emitted_of_trace _ _ _ rfl]
  decide

theorem readCFG_serialText (w : World) (hp : w.presence w.resets = true) :
    serialText (emitted w (readCFG w).2) =
      "DS1821 CFG Map: \r\nD      1\r\nO NTT PS\r\nN VHLTOH\r\nE BFFRLT\r\n"
        ++ digitLine (w.byteAt w.reads % 256) ++ "\r\n" := by
  rw [readCFG_present w hp, emitted_of_trace w _ _ rfl]
  simp only [serialText_append, digitLine]
  simp [serialText, cfgHeader, String.append_assoc]

set_option maxRecDepth 100000 in
/-- C10 fails on the code: for the configuration byte 0 `readCFG` prints nine
digits, `000000000`, under the eight-column header; for every other byte, 1 to
255, the digits are eight and their binary value is the byte. -/
theorem readCFG_digits_zero_byte :
    serialText (emitted (presentWorld 0 []) (readCFG (presentWorld 0 [])).2) =
      "DS1821 CFG Map: \r\nD      1\r\nO NTT PS\r\nN VHLTOH\r\nE BFFRLT\r\n000000000\r\n"
    ∧ (digitLine 0).length = 9
    ∧ (List.range' 1 255).all
        (fun cfg => (digitLine cfg).length == 8 && binValue (digitLine cfg) == cfg) = true := by
  rw [readCFG_serialText (presentWorld 0 []) rfl]
  decide

end DS1821
